import Mathlib

/-!
Verification of the simulation core of the `jiminy` rigid-body dynamics
engine (`Engine.cc`, `MemoryDevice.cc`) against its natural-language
specification.  Floating-point scalars of the source are modelled as exact
rationals (`ℚ`) where only field arithmetic and comparisons occur, and as
real numbers (`ℝ`) where transcendental functions (`tanh`, `sqrt`) appear.
Machine epsilon of IEEE-754 double precision is `2⁻⁵²`.
-/

namespace Jiminy

/-- Result codes returned by the engine and the IO devices
(`result_t` in `Types.h`). -/
inductive result_t where
  | SUCCESS : result_t
  | ERROR_GENERIC : result_t
  | ERROR_BAD_INPUT : result_t
  | ERROR_INIT_FAILED : result_t
  deriving DecidableEq, Repr

/-- The IEEE-754 double precision machine epsilon `2⁻⁵²`, the value of
`std::numeric_limits<float64_t>::epsilon()`. -/
def epsFloat64 : ℚ := 1 / 2 ^ 52

/-! ## MemoryDevice (`MemoryDevice.cc`) -/

/-- The state of a `MemoryDevice`: a byte buffer and a cursor
(`buffer_` and `currentPos_`).  Bytes are modelled as naturals, the cursor
as a signed integer exactly like the `int64_t` of the source. -/
structure MemoryDevice where
  buffer : List ℕ
  currentPos : ℤ
  deriving DecidableEq, Repr

/-- Modelled from the spec: the byte-count helper of `MemoryDevice`
declared in the missing header `MemoryDevice.h` — the number of bytes
remaining between the current position and the end of the buffer. -/
def MemoryDevice.bytesAvailable (d : MemoryDevice) : ℤ :=
  (d.buffer.length : ℤ) - d.currentPos

/-- The operation `MemoryDevice::seek`: out-of-range positions are rejected with
`ERROR_GENERIC` and leave the device untouched; in-range positions become
the new cursor. -/
def MemoryDevice.seek (d : MemoryDevice) (pos : ℤ) : result_t × MemoryDevice :=
  if pos < 0 ∨ (d.buffer.length : ℤ) ≤ pos then
    (result_t.ERROR_GENERIC, d)
  else
    (result_t.SUCCESS, { d with currentPos := pos })

/-- The operation `MemoryDevice::readData`: reads `min(dataSize, bytesAvailable)` bytes
starting at the cursor, advancing the cursor by that amount.  Returns the
transferred count, the transferred bytes and the updated device. -/
def MemoryDevice.readData (d : MemoryDevice) (dataSize : ℤ) :
    ℤ × List ℕ × MemoryDevice :=
  let toRead : ℤ := if dataSize < d.bytesAvailable then dataSize else d.bytesAvailable
  (toRead,
   (d.buffer.drop d.currentPos.toNat).take toRead.toNat,
   { d with currentPos := d.currentPos + toRead })

/-- The operation `MemoryDevice::writeData`: overwrites `min(dataSize, bytesAvailable)`
bytes starting at the cursor with the leading bytes of `data`, advancing
the cursor by that amount.  Returns the transferred count and the updated
device. -/
def MemoryDevice.writeData (d : MemoryDevice) (data : List ℕ) (dataSize : ℤ) :
    ℤ × MemoryDevice :=
  let toWrite : ℤ := if dataSize < d.bytesAvailable then dataSize else d.bytesAvailable
  (toWrite,
   { d with
      buffer := d.buffer.take d.currentPos.toNat
        ++ data.take toWrite.toNat
        ++ d.buffer.drop (d.currentPos + toWrite).toNat,
      currentPos := d.currentPos + toWrite })

/-! ## Break-point period computation (`Engine::simulate`, lines 193-218) -/

/-- The outer break-point period computed by `Engine::simulate` from the
sensor and controller update periods. -/
def updatePeriod (sensorsUpdatePeriod controllerUpdatePeriod : ℚ) : ℚ :=
  if sensorsUpdatePeriod < epsFloat64 then
    controllerUpdatePeriod
  else if controllerUpdatePeriod < epsFloat64 then
    sensorsUpdatePeriod
  else
    min sensorsUpdatePeriod controllerUpdatePeriod

/-- The outer period exactly as the specification words it: `Δc` when
`Δs ≤ ε < Δc`, `Δs` when `Δc ≤ ε < Δs`, `min` when both exceed `ε`, and
`0` (pure adaptive mode) when both are at most `ε`. -/
def updatePeriodClaimed (ds dc : ℚ) : ℚ :=
  if ds ≤ epsFloat64 ∧ epsFloat64 < dc then dc
  else if dc ≤ epsFloat64 ∧ epsFloat64 < ds then ds
  else if epsFloat64 < ds ∧ epsFloat64 < dc then min ds dc
  else 0

/-- The outer period with the claim's case structure amended to what the
source computes: the thresholds are strict comparisons with machine
epsilon, and when both periods are below the threshold the result is the
controller period (not necessarily `0`). -/
def updatePeriodAmended (ds dc : ℚ) : ℚ :=
  if ds < epsFloat64 ∧ epsFloat64 ≤ dc then dc
  else if dc < epsFloat64 ∧ epsFloat64 ≤ ds then ds
  else if epsFloat64 ≤ ds ∧ epsFloat64 ≤ dc then min ds dc
  else dc

/-! ## The `simulate` outer loop (`Engine::simulate`, lines 220-347) -/

/-- The loop-relevant part of the stepper state during `Engine::simulate`:
the current integration time, the dynamical state (kept abstract, the loop
control never inspects it beyond handing it to the callback) and the
iteration counter `iterLast` of the last published snapshot. -/
structure LoopState (α : Type) where
  currentTime : ℚ
  x : α
  iterLast : ℕ

/-- Modelled from the spec: `StepperState::updateLast` (declared in the
missing header `Engine.h`) publishes the new snapshot after a successful
outer iteration and advances the iteration counter by one. -/
def LoopState.updateLast (s : LoopState α) (t : ℚ) (x : α) : LoopState α :=
  { currentTime := t, x := x, iterLast := s.iterLast + 1 }

/-- One iteration of the body of the outer loop of `Engine::simulate`:
the break-point handling and adaptive stepping (abstracted as `phys`,
which produces the new time and state) followed by the snapshot update. -/
def outerBody (phys : LoopState α → ℚ × α) (s : LoopState α) : LoopState α :=
  s.updateLast (phys s).1 (phys s).2

/-- The termination test of the outer loop of `Engine::simulate` (lines
250-252): the end time has been reached up to machine epsilon, the user
callback returned false, or the iteration counter has reached `1e5`. -/
def stopCond (endTime : ℚ) (callbackFct : ℚ → α → Bool) (s : LoopState α) : Bool :=
  decide (|endTime - s.currentTime| < epsFloat64)
    || !callbackFct s.currentTime s.x
    || decide (100000 ≤ s.iterLast)

/-- The outer integration loop of `Engine::simulate`, recursing on an
explicit bound on the number of remaining iterations (the loop terminates
because each body iteration increases the counter that the termination
test caps at `100000`; `simulateLoop_eq` below shows that with the bound
`100001 - iterLast` this definition satisfies exactly the loop's
fixed-point equation). -/
def simulateLoopAux (phys : LoopState α → ℚ × α) (endTime : ℚ)
    (callbackFct : ℚ → α → Bool) : ℕ → LoopState α → LoopState α
  | 0, s => s
  | fuel + 1, s =>
      if stopCond endTime callbackFct s then s
      else simulateLoopAux phys endTime callbackFct fuel (outerBody phys s)

/-- The outer integration loop of `Engine::simulate`: publish, test the
termination condition, and otherwise run one body iteration. -/
def simulateLoop (phys : LoopState α → ℚ × α) (endTime : ℚ)
    (callbackFct : ℚ → α → Bool) (s : LoopState α) : LoopState α :=
  simulateLoopAux phys endTime callbackFct (100001 - s.iterLast) s

/-- Unfolding equation of the outer loop: `simulateLoop` is a fixed point
of the loop recurrence of `Engine::simulate` (lines 224-347). -/
theorem simulateLoop_eq (phys : LoopState α → ℚ × α) (endTime : ℚ)
    (callbackFct : ℚ → α → Bool) (s : LoopState α) :
    simulateLoop phys endTime callbackFct s =
      if stopCond endTime callbackFct s then s
      else simulateLoop phys endTime callbackFct (outerBody phys s) := by
  rw [simulateLoop]
  rcases hf : 100001 - s.iterLast with - | fuel
  · have hstop : stopCond endTime callbackFct s = true := by
      have : 100000 ≤ s.iterLast := by omega
      simp [stopCond, this]
    rw [simulateLoopAux, if_pos hstop]
  · rw [simulateLoopAux]
    by_cases hstop : stopCond endTime callbackFct s = true
    · rw [if_pos hstop, if_pos hstop]
    · have hiter : s.iterLast < 100000 := by
        rcases Bool.or_eq_false_iff.mp (by simpa using hstop :
          stopCond endTime callbackFct s = false) with ⟨-, h3⟩
        simpa using h3
      rw [if_neg hstop, if_neg hstop, simulateLoop]
      have : 100001 - (outerBody phys s).iterLast = fuel := by
        have hb : (outerBody phys s).iterLast = s.iterLast + 1 := rfl
        omega
      rw [this]

/-! ## Command saturation (`Engine::simulate` lines 290-297 and
`Engine::systemDynamics` lines 389-396) -/

/-- The function `boost::algorithm::clamp`. -/
def clampBoost (x lo hi : ℚ) : ℚ :=
  if x < lo then lo else if hi < x then hi else x

/-- The saturation loop applied to the freshly computed command torque
vector `uCommandLast`: entry `i` is clamped to plus or minus the model's
effort limit of the `i`-th actuated joint (indexed in velocity space). -/
def saturateCommand (effortLimit : ℕ → ℚ) (jointsVelocityIdx : List ℕ)
    (uCommand : ℕ → ℚ) : ℕ → ℚ := fun i =>
  match jointsVelocityIdx[i]? with
  | some jointId =>
      clampBoost (uCommand i) (-(effortLimit jointId)) (effortLimit jointId)
  | none => uCommand i

/-! ## `Engine::simulate` entry guards (lines 150-171) -/

/-- The part of the engine state that the guards of `Engine::simulate`
consult, with the mutable remainder (stepper state, telemetry, model
scratch data) kept abstract in the field `rest`. -/
structure EngineState (σ : Type) where
  isInitialized : Bool
  nx : ℕ
  rest : σ

/-- The method `Engine::simulate`: the three entry guards followed by the simulation
run proper, which is abstracted as `run` (it is the only part allowed to
mutate the engine). -/
def simulate (run : EngineState σ → ℚ → EngineState σ) (e : EngineState σ)
    (xInitRows : ℕ) (endTime : ℚ) : result_t × EngineState σ :=
  if e.isInitialized = false then
    (result_t.ERROR_INIT_FAILED, e)
  else if xInitRows ≠ e.nx then
    (result_t.ERROR_BAD_INPUT, e)
  else if endTime < 5 / 100 then
    (result_t.ERROR_BAD_INPUT, e)
  else
    (result_t.SUCCESS, run e endTime)

/-! ## `Engine::setOptions` (lines 544-552) -/

/-- The world options group of the engine option dictionary: the gravity
vector pushed into the rigid-body model. -/
structure WorldOptions where
  gravity : Fin 6 → ℚ

/-- The engine option dictionary, restricted to the group that
`Engine::setOptions` propagates beyond the held snapshot. -/
structure EngineOptions where
  world : WorldOptions

/-- The engine state that `Engine::setOptions` touches: the stored option
holder, the initialisation flag, and the gravity field of the borrowed
model (`model_->pncModel_.gravity`). -/
structure OptionsState where
  engineOptionsHolder : EngineOptions
  isInitialized : Bool
  modelGravity : Fin 6 → ℚ

/-- The method `Engine::setOptions`: replace the stored option holder, and push the
world gravity into the borrowed model only when already initialised. -/
def setOptions (e : OptionsState) (engineOptions : EngineOptions) : OptionsState :=
  { engineOptionsHolder := engineOptions,
    isInitialized := e.isInitialized,
    modelGravity :=
      if e.isInitialized then engineOptions.world.gravity else e.modelGravity }

/-! ## Contact dynamics (`Engine::contactDynamics`, lines 422-495)

Scalars are real numbers here because the contact law uses `tanh` and the
Euclidean norm. -/

/-- The `contacts` group of the engine options (`contactOptions_t`). -/
structure ContactOptions where
  frictionViscous : ℝ
  frictionDry : ℝ
  dryFrictionVelEps : ℝ
  stiffness : ℝ
  damping : ℝ
  transitionEps : ℝ

/-- The kinematic data of one contact frame read by
`Engine::contactDynamics`: the world placement of the frame
(`pncData_.oMf[frameId]`), its placement in the parent joint frame
(`pncModel_.frames[frameId].placement`), and the linear frame velocity
(`pinocchio::getFrameVelocity(...).linear()`). -/
structure ContactFrameData where
  tformFrameRot : Matrix (Fin 3) (Fin 3) ℝ
  posFrame : Fin 3 → ℝ
  tformFrameJointRot : Matrix (Fin 3) (Fin 3) ℝ
  posFrameJoint : Fin 3 → ℝ
  motionFrame : Fin 3 → ℝ

/-- The cross product of two vectors of `ℝ³` (`Eigen`'s `cross`). -/
def cross3 (a b : Fin 3 → ℝ) : Fin 3 → ℝ :=
  ![a 1 * b 2 - a 2 * b 1, a 2 * b 0 - a 0 * b 2, a 0 * b 1 - a 1 * b 0]

/-- The intermediate `vFrameInWorld`: the frame velocity expressed in the world frame. -/
noncomputable def vFrameInWorld (f : ContactFrameData) : Fin 3 → ℝ :=
  f.tformFrameRot.mulVec f.motionFrame

/-- The `damping` contribution of the normal contact force: active only
while the vertical world velocity is negative. -/
noncomputable def contactDampingTerm (o : ContactOptions) (f : ContactFrameData) : ℝ :=
  if vFrameInWorld f 2 < 0 then -o.damping * vFrameInWorld f 2 else 0

/-- The intermediate `fextInWorld(2)`: the vertical component of the contact
force in the world frame. -/
noncomputable def fextInWorldZ (o : ContactOptions) (f : ContactFrameData) : ℝ :=
  -o.stiffness * f.posFrame 2 + contactDampingTerm o f

/-- The intermediate `vNorm`: the Euclidean norm of the tangential world
velocity `vxy`. -/
noncomputable def vNorm (f : ContactFrameData) : ℝ :=
  Real.sqrt (vFrameInWorld f 0 ^ 2 + vFrameInWorld f 1 ^ 2)

/-- The intermediate `frictionCoeff`: the regularised friction coefficient as computed by
the source (wedge below `dryFrictionVelEps`, linear bridge up to `1.5`
times it, viscous value beyond). -/
noncomputable def frictionCoeff (o : ContactOptions) (f : ContactFrameData) : ℝ :=
  if vNorm f > o.dryFrictionVelEps then
    if vNorm f < 1.5 * o.dryFrictionVelEps then
      -2 * vNorm f * (o.frictionDry - o.frictionViscous) / o.dryFrictionVelEps
        + 3 * o.frictionDry - 2 * o.frictionViscous
    else
      o.frictionViscous
  else
    vNorm f * o.frictionDry / o.dryFrictionVelEps

/-- The clamping of the tangential force components to `±1e5 N`
(the `unaryExpr` lambda of the source). -/
noncomputable def clamp1e5 (x : ℝ) : ℝ := min (max x (-100000)) 100000

/-- The intermediate `fextInWorld`: the full contact force in the world frame; the two
tangential components are `-vxy * frictionCoeff * Fz`, clamped. -/
noncomputable def fextInWorld (o : ContactOptions) (f : ContactFrameData) :
    Fin 3 → ℝ := fun i =>
  if i = 2 then fextInWorldZ o f
  else clamp1e5 (-(vFrameInWorld f i) * frictionCoeff o f * fextInWorldZ o f)

/-- The intermediate `fextLocal.head<3>()`: the linear part of the wrench expressed at the
origin of the parent joint frame. -/
noncomputable def fextLocalLin (o : ContactOptions) (f : ContactFrameData) :
    Fin 3 → ℝ :=
  (f.tformFrameJointRot * f.tformFrameRot.transpose).mulVec (fextInWorld o f)

/-- The intermediate `fextLocal.tail<3>()`: the angular part of the wrench at the origin of
the parent joint frame. -/
noncomputable def fextLocalAng (o : ContactOptions) (f : ContactFrameData) :
    Fin 3 → ℝ :=
  cross3 f.posFrameJoint (fextLocalLin o f)

/-- Assembling a 6-D wrench from its linear and angular parts. -/
def assembleWrench (lin ang : Fin 3 → ℝ) : Fin 6 → ℝ := fun i =>
  if h : (i : ℕ) < 3 then lin ⟨i, h⟩ else ang ⟨(i : ℕ) - 3, by omega⟩

/-- The contact blending law `tanh(2 * (-pz / transitionEps))`. -/
noncomputable def blendingLaw (o : ContactOptions) (f : ContactFrameData) : ℝ :=
  Real.tanh (2 * (-(f.posFrame 2) / o.transitionEps))

/-- The method `Engine::contactDynamics`: the 6-D contact wrench contributed by one
contact frame, expressed at the origin of the parent joint frame. -/
noncomputable def contactDynamics (o : ContactOptions) (f : ContactFrameData) :
    Fin 6 → ℝ :=
  if f.posFrame 2 < 0 then
    fun i => blendingLaw o f * assembleWrench (fextLocalLin o f) (fextLocalAng o f) i
  else
    fun _ => 0

/-- The friction coefficient exactly as the specification words it, with
its three regimes delimited by `s ≤ ε`, `ε < s < 1.5ε` and `s ≥ 1.5ε`. -/
noncomputable def frictionCoeffClaimed (o : ContactOptions) (f : ContactFrameData) : ℝ :=
  if vNorm f ≤ o.dryFrictionVelEps then
    (vNorm f / o.dryFrictionVelEps) * o.frictionDry
  else if vNorm f < 1.5 * o.dryFrictionVelEps then
    -2 * vNorm f * (o.frictionDry - o.frictionViscous) / o.dryFrictionVelEps
      + 3 * o.frictionDry - 2 * o.frictionViscous
  else
    o.frictionViscous

/-! ## Joint-limit dynamics (`Engine::boundsDynamics`, lines 497-537) -/

/-- The `joints` group of the engine options (`jointOptions_t`). -/
structure JointOptions where
  boundStiffness : ℝ
  boundDamping : ℝ
  boundTransitionEps : ℝ

/-- The per-joint data consumed by one iteration of the loop of
`Engine::boundsDynamics`: the configuration and velocity indices of the
actuated joint and its position bounds (`boundsMin(i)`, `boundsMax(i)`). -/
structure ActuatedJoint where
  posIdx : ℕ
  velIdx : ℕ
  qMin : ℝ
  qMax : ℝ

/-- The raw joint-limit force and the bound violation error of one
actuated joint, before blending. -/
noncomputable def boundForceRaw (o : JointOptions) (qJoint vJoint qMin qMax : ℝ) :
    ℝ × ℝ :=
  if qJoint > qMax then
    (-o.boundStiffness * (qJoint - qMax) + -o.boundDamping * max vJoint 0,
     qJoint - qMax)
  else if qJoint < qMin then
    (o.boundStiffness * (qMin - qJoint) + -o.boundDamping * min vJoint 0,
     qMin - qJoint)
  else
    (0, 0)

/-- The blended joint-limit force of one actuated joint
(`forceJoint * tanh(2 * (qJointError / boundTransitionEps))`). -/
noncomputable def boundForceJoint (o : JointOptions) (qJoint vJoint qMin qMax : ℝ) : ℝ :=
  (boundForceRaw o qJoint vJoint qMin qMax).1
    * Real.tanh (2 * ((boundForceRaw o qJoint vJoint qMin qMax).2 / o.boundTransitionEps))

/-- The method `Engine::boundsDynamics`: the generalised joint-limit force vector,
zero-initialised and accumulated joint by joint at the velocity rows. -/
noncomputable def boundsDynamics (o : JointOptions) (joints : List ActuatedJoint)
    (q v : ℕ → ℝ) : ℕ → ℝ :=
  joints.foldl
    (fun u j =>
      Function.update u j.velIdx
        (u j.velIdx + boundForceJoint o (q j.posIdx) (v j.velIdx) j.qMin j.qMax))
    (fun _ => 0)

/-- The joint-limit generalised force exactly as the specification words
it: blending factor times raw penalty force, per bound-violation case. -/
noncomputable def boundForceClaimed (o : JointOptions) (qJoint vJoint qMin qMax : ℝ) : ℝ :=
  if qMax < qJoint then
    Real.tanh (2 * (qJoint - qMax) / o.boundTransitionEps)
      * (-o.boundStiffness * (qJoint - qMax) - o.boundDamping * max 0 vJoint)
  else if qJoint < qMin then
    Real.tanh (2 * (qMin - qJoint) / o.boundTransitionEps)
      * (o.boundStiffness * (qMin - qJoint) - o.boundDamping * min 0 vJoint)
  else
    0

/-! ## Theorems -/

/-- C4 (counterexample): with `Δs = 0` and `Δc = 2⁻⁵³`, both periods are
at most machine epsilon, so the claimed break-point period is `0` (pure
adaptive mode), yet `Engine::simulate` computes the period `2⁻⁵³ ≠ 0`
(break-point mode). -/
theorem updatePeriod_claim_cex :
    updatePeriod 0 (1 / 2 ^ 53) = 1 / 2 ^ 53 ∧
    updatePeriodClaimed 0 (1 / 2 ^ 53) = 0 ∧
    (1 / 2 ^ 53 : ℚ) ≠ 0 := by
  refine ⟨?_, ?_, by norm_num⟩
  · rw [updatePeriod, if_pos (by norm_num [epsFloat64])]
  · rw [updatePeriodClaimed]
    norm_num [epsFloat64]

/-- C4 (amended): the outer break-point period equals `Δc` whenever
`Δs < ε` (machine epsilon, strict comparison), `Δs` when `Δs ≥ ε` and
`Δc < ε`, and `min(Δs, Δc)` when both are `≥ ε`; in particular when both
periods are below `ε` the result is `Δc`, which is `0` (pure adaptive
mode) only when `Δc = 0` itself. -/
theorem updatePeriod_amended (ds dc : ℚ) :
    updatePeriod ds dc = updatePeriodAmended ds dc := by
  rw [updatePeriod, updatePeriodAmended]
  rcases lt_or_le ds epsFloat64 with h1 | h1 <;>
    rcases lt_or_le dc epsFloat64 with h2 | h2
  · simp [h1, h2, not_le.mpr h2, not_le.mpr h1]
  · simp [h1, h2]
  · simp [not_lt.mpr h1, h2, h1, not_le.mpr h2]
  · simp [not_lt.mpr h1, not_lt.mpr h2, h1, h2]

/-- C7: `Engine::simulate` returns `ERROR_INIT_FAILED` when the engine is
not initialised, and `ERROR_BAD_INPUT` when the initial state has the
wrong number of rows or the end time is below `5e-2`; in each of these
cases the engine state is returned untouched, before any integration. -/
theorem simulate_entry_guards (run : EngineState σ → ℚ → EngineState σ)
    (e : EngineState σ) (xInitRows : ℕ) (endTime : ℚ) :
    (e.isInitialized = false →
      simulate run e xInitRows endTime = (result_t.ERROR_INIT_FAILED, e)) ∧
    (e.isInitialized = true → xInitRows ≠ e.nx →
      simulate run e xInitRows endTime = (result_t.ERROR_BAD_INPUT, e)) ∧
    (e.isInitialized = true → endTime < 5 / 100 →
      simulate run e xInitRows endTime = (result_t.ERROR_BAD_INPUT, e)) := by
  refine ⟨fun h => ?_, fun h hx => ?_, fun h ht => ?_⟩
  · rw [simulate, if_pos h]
  · rw [simulate, if_neg (by simp [h]), if_pos hx]
  · rw [simulate, if_neg (by simp [h])]
    by_cases hx : xInitRows = e.nx
    · rw [if_neg (by simp [hx]), if_pos ht]
    · rw [if_pos hx]

/-- C7 (witness): a concrete uninitialised engine is rejected with
`ERROR_INIT_FAILED` and left unchanged. -/
theorem simulate_entry_guards_witness :
    simulate (fun e _ => e) (EngineState.mk false 3 ()) 3 1 =
      (result_t.ERROR_INIT_FAILED, EngineState.mk false 3 ()) :=
  (simulate_entry_guards (fun e _ => e) (EngineState.mk false 3 ()) 3 1).1 rfl

/-- C8: `Engine::setOptions` always replaces the stored options holder,
and writes the world gravity into the borrowed model exactly when the
engine is already initialised; before initialisation the model gravity is
left unchanged. -/
theorem setOptions_gravity (e : OptionsState) (engineOptions : EngineOptions) :
    (setOptions e engineOptions).engineOptionsHolder = engineOptions ∧
    (e.isInitialized = true →
      (setOptions e engineOptions).modelGravity = engineOptions.world.gravity) ∧
    (e.isInitialized = false →
      (setOptions e engineOptions).modelGravity = e.modelGravity) := by
  refine ⟨rfl, fun h => ?_, fun h => ?_⟩ <;> simp [setOptions, h]

/-- C8 (witness): on a concrete engine state that is not yet initialised,
`setOptions` swaps the holder but leaves the model gravity alone. -/
theorem setOptions_gravity_witness :
    (setOptions (OptionsState.mk ⟨⟨fun _ => 0⟩⟩ false (fun _ => 9))
        ⟨⟨fun _ => 5⟩⟩).engineOptionsHolder = ⟨⟨fun _ => 5⟩⟩ ∧
    (setOptions (OptionsState.mk ⟨⟨fun _ => 0⟩⟩ false (fun _ => 9))
        ⟨⟨fun _ => 5⟩⟩).modelGravity = fun _ => 9 :=
  ⟨(setOptions_gravity _ _).1, (setOptions_gravity _ _).2.2 rfl⟩

/-- C9 (counterexample): seeking past the end of a one-byte buffer fails
with `ERROR_GENERIC`, not with the BadInput code the claim names. -/
theorem seek_error_kind_cex :
    (MemoryDevice.seek ⟨[0], 0⟩ 5).1 = result_t.ERROR_GENERIC ∧
    (MemoryDevice.seek ⟨[0], 0⟩ 5).1 ≠ result_t.ERROR_BAD_INPUT := by
  decide

/-- C9 (amended): `MemoryDevice::seek` fails with a Generic-kind error
exactly when the requested position is negative or at least the buffer
size, leaving the cursor unchanged; any position inside the buffer is
accepted with `SUCCESS` and becomes the new cursor. -/
theorem seek_spec (d : MemoryDevice) (pos : ℤ) :
    (pos < 0 ∨ (d.buffer.length : ℤ) ≤ pos →
      d.seek pos = (result_t.ERROR_GENERIC, d)) ∧
    (0 ≤ pos → pos < (d.buffer.length : ℤ) →
      d.seek pos = (result_t.SUCCESS, { d with currentPos := pos })) := by
  refine ⟨fun h => ?_, fun h0 h1 => ?_⟩
  · rw [MemoryDevice.seek, if_pos h]
  · rw [MemoryDevice.seek, if_neg (by omega)]

/-- C9 (witness): seeking to position 1 of a two-byte buffer succeeds and
moves the cursor there. -/
theorem seek_spec_witness :
    MemoryDevice.seek ⟨[5, 6], 0⟩ 1 = (result_t.SUCCESS, ⟨[5, 6], 1⟩) :=
  (seek_spec ⟨[5, 6], 0⟩ 1).2 (by decide) (by decide)

/-- C6: every entry of the command torque vector produced by the
saturation loop is bounded in magnitude by the model effort limit of the
corresponding actuated joint (assuming nonnegative effort limits), hence
so is every logged command value. -/
theorem command_saturation (effortLimit : ℕ → ℚ) (jointsVelocityIdx : List ℕ)
    (uCommand : ℕ → ℚ) (hlim : ∀ j, 0 ≤ effortLimit j) :
    ∀ i jointId, jointsVelocityIdx[i]? = some jointId →
      |saturateCommand effortLimit jointsVelocityIdx uCommand i| ≤
        effortLimit jointId := by
  intro i jointId h
  simp only [saturateCommand, h]
  rw [clampBoost]
  split_ifs with h1 h2
  · rw [abs_neg, abs_of_nonneg (hlim jointId)]
  · rw [abs_of_nonneg (hlim jointId)]
  · exact abs_le.mpr ⟨by linarith, by linarith⟩

/-- C6 (witness): a concrete over-limit command entry is saturated to
within the effort limit. -/
theorem command_saturation_witness :
    |saturateCommand (fun _ => 10) [2] (fun _ => 99) 0| ≤ (10 : ℚ) :=
  command_saturation (fun _ => 10) [2] (fun _ => 99) (fun _ => by norm_num) 0 2 rfl

/-- Helper for the outer-loop analysis: from any state whose iteration
counter is at most `100000`, `simulateLoop` runs the body exactly up to
the first state satisfying the termination test and stops there, with the
final iteration counter still at most `100000`.  Fuel-indexed strong
induction on the remaining iteration budget. -/
theorem simulateLoop_firstStop (phys : LoopState α → ℚ × α) (endTime : ℚ)
    (callbackFct : ℚ → α → Bool) :
    ∀ fuel : ℕ, ∀ s : LoopState α, 100001 - s.iterLast ≤ fuel →
      s.iterLast ≤ 100000 →
      ∃ n : ℕ,
        simulateLoop phys endTime callbackFct s = (outerBody phys)^[n] s ∧
        stopCond endTime callbackFct ((outerBody phys)^[n] s) = true ∧
        (∀ k < n, stopCond endTime callbackFct ((outerBody phys)^[k] s) = false) ∧
        (simulateLoop phys endTime callbackFct s).iterLast ≤ 100000 := by
  intro fuel
  induction fuel with
  | zero => intro s hf hs; omega
  | succ m ih =>
    intro s hf hs
    by_cases h : stopCond endTime callbackFct s = true
    · refine ⟨0, ?_, h, fun k hk => absurd hk (Nat.not_lt_zero k), ?_⟩
      · rw [simulateLoop_eq, if_pos h, Function.iterate_zero_apply]
      · rw [simulateLoop_eq, if_pos h]
        exact hs
    · have h' : stopCond endTime callbackFct s = false := by
        simpa using h
      have hiter : s.iterLast < 100000 := by
        rcases Bool.or_eq_false_iff.mp h' with ⟨-, h3⟩
        simpa using h3
      have hbody : (outerBody phys s).iterLast = s.iterLast + 1 := rfl
      obtain ⟨n, he, hstop, hfirst, hle⟩ :=
        ih (outerBody phys s) (by omega) (by omega)
      refine ⟨n + 1, ?_, ?_, ?_, ?_⟩
      · rw [simulateLoop_eq, if_neg h, Function.iterate_succ_apply]
        exact he
      · rw [Function.iterate_succ_apply]
        exact hstop
      · intro k hk
        cases k with
        | zero => simpa using h'
        | succ j =>
          rw [Function.iterate_succ_apply]
          exact hfirst j (by omega)
      · rw [simulateLoop_eq, if_neg h]
        exact hle

/-- C5: started from a freshly reset stepper state (iteration counter
zero), the outer loop of `Engine::simulate` stops exactly at the first
iteration at which the end time is reached within machine epsilon, the
user callback returns false, or the iteration counter has reached
`100000`; consequently the iteration counter at termination is at most
`100000`. -/
theorem simulate_outer_loop (phys : LoopState α → ℚ × α) (endTime : ℚ)
    (callbackFct : ℚ → α → Bool) (s : LoopState α) (h0 : s.iterLast = 0) :
    ∃ n : ℕ,
      simulateLoop phys endTime callbackFct s = (outerBody phys)^[n] s ∧
      stopCond endTime callbackFct ((outerBody phys)^[n] s) = true ∧
      (∀ k < n, stopCond endTime callbackFct ((outerBody phys)^[k] s) = false) ∧
      (simulateLoop phys endTime callbackFct s).iterLast ≤ 100000 :=
  simulateLoop_firstStop phys endTime callbackFct 100001 s (by omega) (by omega)

/-- C5 (witness): a concrete run whose callback immediately requests a
stop terminates at the first published state. -/
theorem simulate_outer_loop_witness :
    ∃ n : ℕ,
      simulateLoop (fun s => (s.currentTime + 1, s.x)) 1 (fun _ _ => false)
          (LoopState.mk 0 () 0) =
        (outerBody (fun s => (s.currentTime + 1, s.x)))^[n] (LoopState.mk 0 () 0) ∧
      stopCond 1 (fun _ _ => false)
          ((outerBody (fun s => (s.currentTime + 1, s.x)))^[n]
            (LoopState.mk 0 () 0)) = true ∧
      (∀ k < n, stopCond 1 (fun _ _ => false)
          ((outerBody (fun s => (s.currentTime + 1, s.x)))^[k]
            (LoopState.mk 0 () 0)) = false) ∧
      (simulateLoop (fun s => (s.currentTime + 1, s.x)) 1 (fun _ _ => false)
          (LoopState.mk 0 () 0)).iterLast ≤ 100000 :=
  simulate_outer_loop (fun s => (s.currentTime + 1, s.x)) 1 (fun _ _ => false)
    (LoopState.mk 0 () 0) rfl

/-- C1: a contact frame with world height at least zero contributes the
zero 6-D wrench; a penetrating frame produces the vertical world force
`-stiffness*pz + damping*max(0, -vz)`, and its full 6-D wrench expressed
at the origin of the parent joint frame scaled by the blending factor
`tanh(2*(-pz)/transitionEps)`. -/
theorem contactDynamics_claim (o : ContactOptions) (f : ContactFrameData) :
    (0 ≤ f.posFrame 2 → contactDynamics o f = fun _ => 0) ∧
    (f.posFrame 2 < 0 →
      fextInWorld o f 2 =
        -o.stiffness * f.posFrame 2 + o.damping * max 0 (-(vFrameInWorld f 2)) ∧
      contactDynamics o f = fun i =>
        Real.tanh (2 * (-(f.posFrame 2)) / o.transitionEps) *
          assembleWrench (fextLocalLin o f) (fextLocalAng o f) i) := by
  constructor
  · intro h
    rw [contactDynamics, if_neg (not_lt.mpr h)]
  · intro h
    constructor
    · rw [fextInWorld, if_pos rfl, fextInWorldZ, contactDampingTerm]
      rcases lt_or_le (vFrameInWorld f 2) 0 with hv | hv
      · rw [if_pos hv, max_eq_right (by linarith)]
        ring
      · rw [if_neg (not_lt.mpr hv), max_eq_left (by linarith)]
        ring
    · rw [contactDynamics, if_pos h]
      funext i
      rw [blendingLaw]
      congr 1
      ring

/-- C1 (witness): a frame resting exactly at the ground level contributes
the zero wrench. -/
theorem contactDynamics_claim_witness :
    contactDynamics (ContactOptions.mk 1 1 1 1 1 1)
      (ContactFrameData.mk 1 (fun _ => 0) 1 (fun _ => 0) (fun _ => 0)) =
      fun _ => 0 :=
  (contactDynamics_claim (ContactOptions.mk 1 1 1 1 1 1)
    (ContactFrameData.mk 1 (fun _ => 0) 1 (fun _ => 0) (fun _ => 0))).1
    (le_refl 0)

/-- A concrete penetrating contact frame used to test the friction claim:
identity world rotation, height `-1`, tangential world velocity `(3, 4)`
(of norm `5`). -/
noncomputable def frictionFrame : ContactFrameData :=
  ContactFrameData.mk 1 ![0, 0, -1] 1 (fun _ => 0) ![3, 4, 0]

/-- Contact options used with `frictionFrame`: unit stiffness, damping,
dry-friction regularisation scale and viscous coefficient. -/
noncomputable def frictionOptions : ContactOptions :=
  ContactOptions.mk 1 2 1 1 1 1

/-- Evaluation helper: the world velocity of `frictionFrame`. -/
theorem frictionFrame_v : vFrameInWorld frictionFrame = ![3, 4, 0] := by
  rw [vFrameInWorld, frictionFrame]
  exact Matrix.one_mulVec _

/-- Evaluation helper: the tangential speed of `frictionFrame` is `5`. -/
theorem frictionFrame_vNorm : vNorm frictionFrame = 5 := by
  rw [vNorm, frictionFrame_v]
  have h1 : (![(3 : ℝ), 4, 0] 0) ^ 2 + (![(3 : ℝ), 4, 0] 1) ^ 2 = 5 ^ 2 := by
    norm_num [Matrix.cons_val_zero, Matrix.cons_val_one]
  rw [h1, Real.sqrt_sq (by norm_num : (0 : ℝ) ≤ 5)]

/-- Evaluation helper: the vertical contact force of `frictionFrame`. -/
theorem frictionFrame_Fz : fextInWorldZ frictionOptions frictionFrame = 1 := by
  rw [fextInWorldZ, contactDampingTerm, frictionFrame_v]
  norm_num [frictionOptions, frictionFrame, Matrix.cons_val_two, Matrix.cons_val_zero]

/-- Evaluation helper: the friction coefficient of `frictionFrame` is the
viscous coefficient `1` (speed `5` is beyond `1.5` times the scale). -/
theorem frictionFrame_mu : frictionCoeff frictionOptions frictionFrame = 1 := by
  rw [frictionCoeff, frictionFrame_vNorm]
  norm_num [frictionOptions]

/-- C2 (counterexample): on the concrete penetrating frame with tangential
velocity `(3, 4)` and friction coefficient `1`, the first tangential force
component computed by the source is `-3` (and not the value `-3/5` of the
claimed formula `-(pxy_dot/s)*mu*Fz`, even after clamping). -/
theorem contact_friction_cex :
    frictionFrame.posFrame 2 < 0 ∧
    fextInWorld frictionOptions frictionFrame 0 = -3 ∧
    clamp1e5 (-(vFrameInWorld frictionFrame 0 / vNorm frictionFrame) *
        frictionCoeff frictionOptions frictionFrame *
        fextInWorldZ frictionOptions frictionFrame) = -(3 / 5) ∧
    (-3 : ℝ) ≠ -(3 / 5) := by
  refine ⟨by norm_num [frictionFrame], ?_, ?_, by norm_num⟩
  · rw [fextInWorld, if_neg (by decide), frictionFrame_mu, frictionFrame_Fz,
      frictionFrame_v]
    norm_num [clamp1e5, Matrix.cons_val_zero]
  · rw [frictionFrame_mu, frictionFrame_Fz, frictionFrame_vNorm, frictionFrame_v]
    norm_num [clamp1e5, Matrix.cons_val_zero]

/-- C2 (amended): for a penetrating contact frame the friction coefficient
follows exactly the three claimed regimes in the tangential speed, and
each tangential world force component equals `-pxy_dot_i * mu * Fz`
(without the normalisation by the speed), clamped to `[-1e5, 1e5]`. -/
theorem contact_friction_amended (o : ContactOptions) (f : ContactFrameData)
    (_hpz : f.posFrame 2 < 0) :
    frictionCoeff o f = frictionCoeffClaimed o f ∧
    ∀ i : Fin 3, i ≠ 2 →
      fextInWorld o f i =
        clamp1e5 (-(vFrameInWorld f i) * frictionCoeff o f * fextInWorldZ o f) := by
  refine ⟨?_, fun i hi => by rw [fextInWorld, if_neg hi]⟩
  rw [frictionCoeff, frictionCoeffClaimed]
  rcases le_or_lt (vNorm f) o.dryFrictionVelEps with h | h
  · rw [if_neg (not_lt.mpr h), if_pos h]
    ring
  · rw [if_pos h, if_neg (not_le.mpr h)]

/-- C2 (amended, witness): the amended tangential force formula evaluated
on the concrete penetrating frame. -/
theorem contact_friction_amended_witness :
    frictionCoeff frictionOptions frictionFrame =
      frictionCoeffClaimed frictionOptions frictionFrame ∧
    ∀ i : Fin 3, i ≠ 2 →
      fextInWorld frictionOptions frictionFrame i =
        clamp1e5 (-(vFrameInWorld frictionFrame i) *
          frictionCoeff frictionOptions frictionFrame *
          fextInWorldZ frictionOptions frictionFrame) :=
  contact_friction_amended frictionOptions frictionFrame
    (by norm_num [frictionFrame])

/-- Helper: rows whose index is not the velocity index of any joint of the
list are left untouched by the accumulation loop of
`Engine::boundsDynamics`. -/
theorem boundsFold_notMem (o : JointOptions) (q v : ℕ → ℝ) :
    ∀ (joints : List ActuatedJoint) (u : ℕ → ℝ) (r : ℕ),
      r ∉ joints.map ActuatedJoint.velIdx →
      joints.foldl
        (fun u j =>
          Function.update u j.velIdx
            (u j.velIdx + boundForceJoint o (q j.posIdx) (v j.velIdx) j.qMin j.qMax))
        u r = u r := by
  intro joints
  induction joints with
  | nil => intro u r _; rfl
  | cons jt rest ih =>
    intro u r hr
    rw [List.map_cons, List.mem_cons, not_or] at hr
    rw [List.foldl_cons, ih _ r hr.2]
    exact Function.update_noteq hr.1 _ u

/-- Helper: when the velocity indices are pairwise distinct, the
accumulation loop of `Engine::boundsDynamics` adds exactly one force at
the velocity row of each joint of the list. -/
theorem boundsFold_mem (o : JointOptions) (q v : ℕ → ℝ) :
    ∀ (joints : List ActuatedJoint) (u : ℕ → ℝ) (j : ActuatedJoint),
      (joints.map ActuatedJoint.velIdx).Nodup → j ∈ joints →
      joints.foldl
        (fun u j =>
          Function.update u j.velIdx
            (u j.velIdx + boundForceJoint o (q j.posIdx) (v j.velIdx) j.qMin j.qMax))
        u j.velIdx =
        u j.velIdx + boundForceJoint o (q j.posIdx) (v j.velIdx) j.qMin j.qMax := by
  intro joints
  induction joints with
  | nil => intro u j _ hj; exact absurd hj (List.not_mem_nil j)
  | cons jt rest ih =>
    intro u j hnd hj
    rw [List.map_cons, List.nodup_cons] at hnd
    rcases List.mem_cons.mp hj with hj | hj
    · subst hj
      rw [List.foldl_cons, boundsFold_notMem o q v rest _ _ hnd.1,
        Function.update_same]
    · have hne : j.velIdx ≠ jt.velIdx := fun he =>
        hnd.1 (he ▸ List.mem_map_of_mem ActuatedJoint.velIdx hj)
      rw [List.foldl_cons, ih _ j hnd.2 hj, Function.update_noteq hne]

/-- Helper: the per-joint blended penalty force computed by the source
coincides with the formula of the specification. -/
theorem boundForceJoint_eq_claimed (o : JointOptions) (qJoint vJoint qMin qMax : ℝ) :
    boundForceJoint o qJoint vJoint qMin qMax =
      boundForceClaimed o qJoint vJoint qMin qMax := by
  rw [boundForceJoint, boundForceRaw, boundForceClaimed]
  split_ifs with h1 h2
  · have harg : 2 * ((qJoint - qMax) / o.boundTransitionEps) =
        2 * (qJoint - qMax) / o.boundTransitionEps := by ring
    rw [harg, max_comm]
    ring
  · have harg : 2 * ((qMin - qJoint) / o.boundTransitionEps) =
        2 * (qMin - qJoint) / o.boundTransitionEps := by ring
    rw [harg, min_comm]
    ring
  · simp

/-- C3: when the actuated joints have pairwise distinct velocity indices,
the output of `Engine::boundsDynamics` carries, at the velocity row of
each actuated joint, exactly the blended joint-limit force of the
specification (zero inside the bounds), and zero at every other row. -/
theorem bounds_dynamics_claim (o : JointOptions) (joints : List ActuatedJoint)
    (q v : ℕ → ℝ) (hnd : (joints.map ActuatedJoint.velIdx).Nodup) :
    (∀ j ∈ joints,
      boundsDynamics o joints q v j.velIdx =
        boundForceClaimed o (q j.posIdx) (v j.velIdx) j.qMin j.qMax) ∧
    (∀ r, r ∉ joints.map ActuatedJoint.velIdx →
      boundsDynamics o joints q v r = 0) := by
  constructor
  · intro j hj
    rw [boundsDynamics, boundsFold_mem o q v joints _ j hnd hj,
      boundForceJoint_eq_claimed]
    exact zero_add _
  · intro r hr
    rw [boundsDynamics, boundsFold_notMem o q v joints _ r hr]

/-- C3 (witness): a single actuated joint pushed past its upper bound
receives the blended penalty force at its velocity row, and the row after
it stays zero. -/
theorem bounds_dynamics_claim_witness :
    (∀ j ∈ [ActuatedJoint.mk 0 1 (-1) 1],
      boundsDynamics (JointOptions.mk 1 1 1) [ActuatedJoint.mk 0 1 (-1) 1]
          (fun _ => 2) (fun _ => 0) j.velIdx =
        boundForceClaimed (JointOptions.mk 1 1 1) ((fun _ => (2 : ℝ)) j.posIdx)
          ((fun _ => (0 : ℝ)) j.velIdx) j.qMin j.qMax) ∧
    (∀ r, r ∉ [ActuatedJoint.mk 0 1 (-1) 1].map ActuatedJoint.velIdx →
      boundsDynamics (JointOptions.mk 1 1 1) [ActuatedJoint.mk 0 1 (-1) 1]
          (fun _ => 2) (fun _ => 0) r = 0) :=
  bounds_dynamics_claim (JointOptions.mk 1 1 1) [ActuatedJoint.mk 0 1 (-1) 1]
    (fun _ => 2) (fun _ => 0) (by simp)

/-- C10: for a nonnegative requested size and a cursor inside the buffer,
`MemoryDevice::readData` and `MemoryDevice::writeData` transfer exactly
`min(requested, bytesAvailable)` bytes, return that count, advance the
cursor by it, and touch no byte outside the buffer: reading returns
exactly the buffer bytes starting at the cursor and leaves the buffer
unchanged, while writing preserves the buffer length, copies the leading
bytes of the input into the written window, and leaves every byte outside
the window unchanged. -/
theorem memoryDevice_transfer (d : MemoryDevice) (data : List ℕ) (n : ℤ)
    (hn : 0 ≤ n) (hpos : 0 ≤ d.currentPos)
    (hlen : d.currentPos ≤ (d.buffer.length : ℤ))
    (hdata : n ≤ (data.length : ℤ)) :
    (d.readData n).1 = min n d.bytesAvailable ∧
    (d.readData n).2.2.currentPos = d.currentPos + min n d.bytesAvailable ∧
    (d.readData n).2.2.buffer = d.buffer ∧
    (d.readData n).2.1.length = (min n d.bytesAvailable).toNat ∧
    (∀ k : ℕ, k < (min n d.bytesAvailable).toNat →
      (d.readData n).2.1[k]? = d.buffer[d.currentPos.toNat + k]?) ∧
    (d.writeData data n).1 = min n d.bytesAvailable ∧
    (d.writeData data n).2.currentPos = d.currentPos + min n d.bytesAvailable ∧
    (d.writeData data n).2.buffer.length = d.buffer.length ∧
    (∀ k : ℕ, k < d.currentPos.toNat →
      (d.writeData data n).2.buffer[k]? = d.buffer[k]?) ∧
    (∀ k : ℕ, d.currentPos.toNat + (min n d.bytesAvailable).toNat ≤ k →
      (d.writeData data n).2.buffer[k]? = d.buffer[k]?) ∧
    (∀ k : ℕ, k < (min n d.bytesAvailable).toNat →
      (d.writeData data n).2.buffer[d.currentPos.toNat + k]? = data[k]?) := by
  have havail : d.bytesAvailable = (d.buffer.length : ℤ) - d.currentPos := rfl
  have htif : (if n < d.bytesAvailable then n else d.bytesAvailable) =
      min n d.bytesAvailable := by
    rcases lt_or_le n d.bytesAvailable with h | h
    · rw [if_pos h, min_eq_left h.le]
    · rw [if_neg (not_lt.mpr h), min_eq_right h]
  have hmle : min n d.bytesAvailable ≤ (d.buffer.length : ℤ) - d.currentPos := by
    rw [← havail]
    exact min_le_right _ _
  have hmn : min n d.bytesAvailable ≤ n := min_le_left _ _
  have ht0 : 0 ≤ min n d.bytesAvailable := le_min hn (by omega)
  have hA : (d.buffer.take d.currentPos.toNat).length = d.currentPos.toNat := by
    rw [List.length_take]
    omega
  have hB : (data.take (min n d.bytesAvailable).toNat).length =
      (min n d.bytesAvailable).toNat := by
    rw [List.length_take]
    omega
  simp only [MemoryDevice.readData, MemoryDevice.writeData, htif]
  refine ⟨trivial, trivial, trivial, ?_, ?_, trivial, trivial, ?_, ?_, ?_, ?_⟩
  · rw [List.length_take, List.length_drop]
    omega
  · intro k hk
    rw [List.getElem?_take_of_lt hk, List.getElem?_drop]
  · rw [List.length_append, List.length_append, hA, hB, List.length_drop]
    omega
  · intro k hk
    rw [List.append_assoc,
      List.getElem?_append_left (by rw [hA]; exact hk),
      List.getElem?_take_of_lt hk]
  · intro k hk
    rw [List.append_assoc,
      List.getElem?_append_right (by rw [hA]; omega), hA,
      List.getElem?_append_right (by rw [hB]; omega), hB,
      List.getElem?_drop]
    have hidx : (d.currentPos + min n d.bytesAvailable).toNat +
        (k - d.currentPos.toNat - (min n d.bytesAvailable).toNat) = k := by
      omega
    rw [hidx]
  · intro k hk
    rw [List.append_assoc,
      List.getElem?_append_right (by rw [hA]; omega), hA]
    have hidx : d.currentPos.toNat + k - d.currentPos.toNat = k := by omega
    rw [hidx, List.getElem?_append_left (by rw [hB]; exact hk),
      List.getElem?_take_of_lt hk]

/-- C10 (witness): a concrete two-byte read and write in the middle of a
three-byte buffer transfers both available bytes. -/
theorem memoryDevice_transfer_witness :
    (0 : ℤ) ≤ 2 ∧ (0 : ℤ) ≤ (MemoryDevice.mk [10, 20, 30] 1).currentPos ∧
    (MemoryDevice.mk [10, 20, 30] 1).currentPos ≤
      ((MemoryDevice.mk [10, 20, 30] 1).buffer.length : ℤ) ∧
    (2 : ℤ) ≤ (([7, 8] : List ℕ).length : ℤ) ∧
    (MemoryDevice.readData (MemoryDevice.mk [10, 20, 30] 1) 2).1 =
      min 2 (MemoryDevice.bytesAvailable (MemoryDevice.mk [10, 20, 30] 1)) ∧
    (MemoryDevice.writeData (MemoryDevice.mk [10, 20, 30] 1) [7, 8] 2).2.buffer.length =
      (MemoryDevice.mk [10, 20, 30] 1).buffer.length :=
  ⟨by decide, by decide, by decide, by decide,
   (memoryDevice_transfer (MemoryDevice.mk [10, 20, 30] 1) [7, 8] 2
     (by decide) (by decide) (by decide) (by decide)).1,
   (memoryDevice_transfer (MemoryDevice.mk [10, 20, 30] 1) [7, 8] 2
     (by decide) (by decide) (by decide) (by decide)).2.2.2.2.2.2.2.1⟩

end Jiminy
